import Mathlib

/-!
Shallow embedding of `src/main.go` (sog01/go-openai-example), a CLI agent that
orchestrates an OpenAI function-calling conversation over two tools
(`geocode`, `weather`), together with theorems settling the spec claims.

Modelling conventions:
* Go `error` values are modelled by their message string (`GoErr`).
* Go `[]byte` payloads are modelled as strings (`Bytes`); `string(b)` on a
  `nil` slice yields `""`, modelled by `Option.getD ""`.
* A Go function that can panic (unchecked type assertion, out-of-range index)
  returns `GoResult`, whose `panic` constructor records the runtime failure as
  distinct from an ordinary `(value, error)` return (`ret`).
* External library calls that live outside `src/` — `json.Unmarshal` into
  `map[string]interface{}`, `http.Get` + `ioutil.ReadAll`, and the OpenAI
  client call inside `chat` — are parameters (oracles) of the embedded
  functions; everything the code of the repository does with their results is
  embedded faithfully.
* Each embedded function also returns a trace (`List Event`) recording which
  external collaborators the code invoked: `Event.chatCall` for a Model
  Gateway call, `Event.toolCall` for a tool-handler dispatch.  Debug printing
  in the Go code is observability only and is not traced.
-/

namespace GoOpenAIExample

/-- Go `error`, modelled by its message. -/
abbrev GoErr := String

/-- Go `[]byte`, modelled as the body text. -/
abbrev Bytes := String

/-- Result of a Go call that may panic: either a normal return or a runtime
panic (unchecked type assertion, index out of range). -/
inductive GoResult (α : Type) where
  | ret (a : α)
  | panic (msg : String)
deriving DecidableEq, Repr

/-- Dynamic JSON value, the model of Go `interface{}` values produced by
`json.Unmarshal` into `map[string]interface{}`.  Go decodes JSON numbers into
`float64`; only the dynamic type of a number matters for the claims, so its
payload is kept as an integer. -/
inductive JSONValue where
  | null
  | bool (b : Bool)
  | num (n : Int)
  | str (s : String)
  | arr (elems : List JSONValue)
  | obj (fields : List (String × JSONValue))

/-- The decoded argument map `map[string]interface{}`. -/
abbrev ArgsMap := List (String × JSONValue)

/-- Go map indexing `args[key]`: the stored value, or the zero value (nil
interface, here `none`) when the key is absent. -/
def mapGet (args : ArgsMap) (key : String) : Option JSONValue :=
  (args.find? (fun kv => kv.1 == key)).map (fun kv => kv.2)

/-- Go unchecked type assertion `v.(string)` on an `interface{}` value:
returns the string, or panics when the dynamic type is not `string`
(including the nil interface obtained from a missing map key). -/
def assertString : Option JSONValue → GoResult String
  | some (.str s) => .ret s
  | _ => .panic "interface conversion"

/-- Outcome of the `http.Get` + `ioutil.ReadAll` pair used by both tool
handlers: either `http.Get` itself fails, or it succeeds and `ReadAll`
produces a body and/or a read error. -/
inductive HTTPOutcome where
  | fail (e : GoErr)
  | success (body : Option Bytes) (readErr : Option GoErr)

/-- Oracle for `http.Get` + `ioutil.ReadAll`, keyed by the request URL. -/
abbrev HTTPOracle := String → HTTPOutcome

/-- Go `fmt.Sprintf` restricted to `%s` verbs, at the character level: each
`%s` in the format consumes the next argument verbatim (the argument is never
re-scanned), every other character is copied. -/
def formatChars : List Char → List String → List Char
  | [], _ => []
  | c :: rest, args =>
    if c = '%' then
      match hr : rest, args with
      | 's' :: rest2, arg :: args2 => arg.data ++ formatChars rest2 args2
      | _, _ => c :: formatChars rest args
    else c :: formatChars rest args
termination_by cs _ => cs.length
decreasing_by all_goals (simp_all [List.length]; try omega)

/-- Go `fmt.Sprintf(fmtStr, args...)` for `%s`-only format strings. -/
def sprintf (fmtStr : String) (args : List String) : String :=
  ⟨formatChars fmtStr.data args⟩

/-- The URL built by `geocode` in `src/main.go` line 26. -/
def geocodeURL (location : String) : String :=
  sprintf "https://geocoding-api.open-meteo.com/v1/search?name=%s&count=1&format=json"
    [location]

/-- The URL built by `weather` in `src/main.go` line 37 (note the `$` right
after `lat=` in the format string). -/
def weatherURL (lat lon apikey : String) : String :=
  sprintf "https://api.openweathermap.org/data/2.5/weather?units=metric&lat=$%s&lon=%s&appid=%s"
    [lat, lon, apikey]

/-- The `geocode` tool handler (`src/main.go` lines 25-34): GET the geocoding
URL; a transport error is returned as `(nil, err)`, otherwise the `ReadAll`
result is returned as is. -/
def geocode (httpGet : HTTPOracle) (location : String) : Option Bytes × Option GoErr :=
  match httpGet (geocodeURL location) with
  | .fail e => (none, some e)
  | .success body readErr => (body, readErr)

/-- The `weather` tool handler (`src/main.go` lines 36-45); `apikey` is the
process-global `openWeatherMapAPIKEY`. -/
def weather (httpGet : HTTPOracle) (apikey lat lon : String) : Option Bytes × Option GoErr :=
  match httpGet (weatherURL lat lon apikey) with
  | .fail e => (none, some e)
  | .success body readErr => (body, readErr)

/-- Oracle for `json.Unmarshal` of the raw argument payload into
`map[string]interface{}`: an error for malformed input, the field map
otherwise. -/
abbrev UnmarshalOracle := String → Except GoErr ArgsMap

/-- The tool dispatcher `invokeFunction` (`src/main.go` lines 101-118):
decode the arguments (error returned as `(nil, err)`), then switch on the
tool name; `geocode` and `weather` extract their fields with unchecked
`.(string)` assertions (which panic on a wrong dynamic type) and call the
handler, and any other name falls through to `return nil, nil`.  The second
component traces which handler, if any, was dispatched. -/
def invokeFunction (unmarshal : UnmarshalOracle) (httpGet : HTTPOracle)
    (apikey : String) (name argsIn : String) :
    GoResult (Option Bytes × Option GoErr) × List String :=
  match unmarshal argsIn with
  | .error e => (.ret (none, some e), [])
  | .ok args =>
    if name = "geocode" then
      match assertString (mapGet args "location") with
      | .panic p => (.panic p, [])
      | .ret location => (.ret (geocode httpGet location), ["geocode"])
    else if name = "weather" then
      match assertString (mapGet args "latitude") with
      | .panic p => (.panic p, [])
      | .ret lat =>
        match assertString (mapGet args "longitude") with
        | .panic p => (.panic p, [])
        | .ret lon => (.ret (weather httpGet apikey lat lon), ["weather"])
    else (.ret (none, none), [])

/-- The `FunctionCall` type of the `go-openai` library payload: tool name and raw JSON
argument string. -/
structure FunctionCall where
  name : String
  arguments : String
deriving DecidableEq, Repr

/-- The `ChatCompletionMessage` type of the `go-openai` library: role and content
strings, the tool name for role-`function` messages (zero value `""`
otherwise), and an optional `FunctionCall` (a nil pointer modelled as
`none`). -/
structure ChatCompletionMessage where
  role : String
  content : String
  name : String := ""
  functionCall : Option FunctionCall := none
deriving DecidableEq, Repr

/-- One choice of a chat completion response; only the message is used by the
code. -/
structure ChatChoice where
  message : ChatCompletionMessage
deriving DecidableEq, Repr

/-- The chat completion response; only `Choices` is used by the code. -/
structure ChatCompletionResponse where
  choices : List ChatChoice
deriving DecidableEq, Repr

/-- Trace events recording which external collaborators `converse` invoked:
a Model Gateway round-trip (`chatCall`, with the transcript it was given) or
a tool-handler dispatch (`toolCall`, with the tool name). -/
inductive Event where
  | chatCall (messages : List ChatCompletionMessage)
  | toolCall (name : String)
deriving DecidableEq, Repr

/-- Oracle for the `chat` function (`src/main.go` lines 47-99): it wraps a
single `client.CreateChatCompletion` call with a fixed model identifier and
the two static tool schemas, returning the backend response or a transport
error; the wrapped client lives outside `src/`, so the whole round-trip is a
parameter keyed by the transcript. -/
abbrev ChatOracle := List ChatCompletionMessage → Except GoErr ChatCompletionResponse

/-- Lift the dispatcher tool-name trace into the event trace of `converse`. -/
def toolEvents (names : List String) : List Event :=
  names.map Event.toolCall

/-- The orchestrator `converse` (`src/main.go` lines 120-152):
* if the transcript has more than 13 messages, return the
  `too in-depth conversation` error without touching the gateway;
* otherwise call `chat`; a gateway error is wrapped as `failed chat: %v`;
* read `resp.Choices[0]` unconditionally (a panic when `Choices` is empty);
* if that message carries a `FunctionCall`, dispatch it; a dispatcher error
  is wrapped as `failed invoke function: %v`, a dispatcher panic propagates;
  on success recurse on a fresh copy of the transcript extended with the
  assistant message and a role-`function` message named after the tool whose
  content is `string(result)`;
* otherwise return the message content.
The second component is the trace of gateway and tool invocations, in
order. -/
def converse (chatO : ChatOracle) (unmarshal : UnmarshalOracle)
    (httpGet : HTTPOracle) (apikey : String)
    (messages : List ChatCompletionMessage) :
    GoResult (String × Option GoErr) × List Event :=
  if _h : messages.length > 13 then
    (.ret ("", some "too in-depth conversation"), [])
  else
    match chatO messages with
    | .error e => (.ret ("", some ("failed chat: " ++ e)), [.chatCall messages])
    | .ok resp =>
      match resp.choices with
      | [] => (.panic "index out of range", [.chatCall messages])
      | choice :: _ =>
        match choice.message.functionCall with
        | none => (.ret (choice.message.content, none), [.chatCall messages])
        | some fc =>
          match invokeFunction unmarshal httpGet apikey fc.name fc.arguments with
          | (.panic p, tools) =>
            (.panic p, .chatCall messages :: toolEvents tools)
          | (.ret (_, some e), tools) =>
            (.ret ("", some ("failed invoke function: " ++ e)),
              .chatCall messages :: toolEvents tools)
          | (.ret (res, none), tools) =>
            let r := converse chatO unmarshal httpGet apikey
              (messages ++ [choice.message,
                { role := "function", name := fc.name, content := res.getD "" }])
            (r.1, .chatCall messages :: (toolEvents tools ++ r.2))
termination_by 14 - messages.length
decreasing_by simp [List.length_append]; omega

/-- The entry point `query` (`src/main.go` lines 154-169): seed the
transcript with the two fixed system instructions and the user inquiry, then
delegate to `converse`. -/
def query (chatO : ChatOracle) (unmarshal : UnmarshalOracle)
    (httpGet : HTTPOracle) (apikey : String) (inquiry : String) :
    GoResult (String × Option GoErr) × List Event :=
  converse chatO unmarshal httpGet apikey
    [ { role := "system",
        content := "Only use the functions you have been provided with." },
      { role := "system", content := "Only answer in 50 words or less." },
      { role := "user", content := inquiry } ]

/-! Concrete stub oracles used by the witness and counterexample theorems. -/

/-- Stub gateway that always fails with a transport error. -/
def stubChatError : ChatOracle := fun _ => .error "connection refused"

/-- Stub gateway that succeeds with an empty `Choices` list. -/
def stubChatEmptyChoices : ChatOracle := fun _ => .ok ⟨[]⟩

/-- An assistant message that requests the `geocode` tool. -/
def geocodeCallMsg : ChatCompletionMessage :=
  { role := "assistant", content := "",
    functionCall := some ⟨"geocode", "PAYLOAD"⟩ }

/-- Stub gateway whose top choice requests the `geocode` tool. -/
def stubChatGeocodeCall : ChatOracle := fun _ => .ok ⟨[⟨geocodeCallMsg⟩]⟩

/-- A one-message user transcript. -/
def userHi : ChatCompletionMessage := { role := "user", content := "hi" }

/-- Stub decoder that always reports malformed JSON. -/
def stubUnmarshalError : UnmarshalOracle := fun _ => .error "invalid character"

/-- Stub decoder producing string-typed arguments for every tool field. -/
def stubUnmarshalStrArgs : UnmarshalOracle := fun _ =>
  .ok [("location", .str "Paris"), ("latitude", .str "48.85"),
       ("longitude", .str "2.35")]

/-- Stub decoder producing number-typed coordinates, as the model actually
sends them for the advertised `number` schema. -/
def stubUnmarshalNumArgs : UnmarshalOracle := fun _ =>
  .ok [("latitude", .num 48), ("longitude", .num 2)]

/-- Stub HTTP layer that always returns a fixed body. -/
def stubHTTP : HTTPOracle := fun _ => .success (some "BODY") none

/-- A transcript of 14 messages, one past the depth bound. -/
def fourteenMessages : List ChatCompletionMessage :=
  List.replicate 14 { role := "user", content := "hi" }

/-- C2: a `ToolCallRequest` whose tool name is neither `geocode` nor
`weather` and whose payload decodes successfully falls through the `switch`
in `invokeFunction` to `return nil, nil`: an empty result, no error, and no
handler dispatched. -/
theorem invokeFunction_unknown_tool (unmarshal : UnmarshalOracle)
    (httpGet : HTTPOracle) (apikey name argsIn : String) (args : ArgsMap)
    (hdec : unmarshal argsIn = Except.ok args)
    (hg : name ≠ "geocode") (hw : name ≠ "weather") :
    invokeFunction unmarshal httpGet apikey name argsIn
      = (.ret (none, none), []) := by
  unfold invokeFunction
  rw [hdec]
  simp [hg, hw]

/-- Witness for C2 at the concrete tool name `translate`. -/
theorem invokeFunction_unknown_tool_witness :
    invokeFunction stubUnmarshalStrArgs stubHTTP "APIKEY" "translate" "PAYLOAD"
      = (.ret (none, none), []) :=
  invokeFunction_unknown_tool stubUnmarshalStrArgs stubHTTP "APIKEY"
    "translate" "PAYLOAD" _ rfl (by decide) (by decide)

/-- C7: when the argument payload does not decode, `invokeFunction` returns
`(nil, err)` with the decode error before the `switch`, so no handler is
dispatched (empty tool trace). -/
theorem invokeFunction_decode_error (unmarshal : UnmarshalOracle)
    (httpGet : HTTPOracle) (apikey name argsIn : String) (e : GoErr)
    (hdec : unmarshal argsIn = Except.error e) :
    invokeFunction unmarshal httpGet apikey name argsIn
      = (.ret (none, some e), []) := by
  unfold invokeFunction
  rw [hdec]

/-- Witness for C7 with the stub decoder that reports malformed JSON. -/
theorem invokeFunction_decode_error_witness :
    invokeFunction stubUnmarshalError stubHTTP "APIKEY" "weather" "notjson"
      = (.ret (none, some "invalid character"), []) :=
  invokeFunction_decode_error stubUnmarshalError stubHTTP "APIKEY" "weather"
    "notjson" "invalid character" rfl

/-- C3 counterexample: with `latitude` decoded as a number, the dispatch of
`weather` hits the unchecked type assertion `args["latitude"].(string)` and
panics; the outcome is `GoResult.panic`, not a returned error value, so the
claim that a `TypeMismatchError` is returned as the error result is false. -/
theorem invokeFunction_latitude_number_no_error_return :
    (invokeFunction stubUnmarshalNumArgs stubHTTP "APIKEY" "weather"
        "PAYLOAD").1
      = GoResult.panic "interface conversion" := rfl

/-- C3 amended: with `latitude` decoded as a number, `invokeFunction` on the
`weather` tool fails with a runtime type-assertion panic (a crash of the
run), not with a returned `TypeMismatchError`; no handler is dispatched. -/
theorem invokeFunction_latitude_number_panics (unmarshal : UnmarshalOracle)
    (httpGet : HTTPOracle) (apikey argsIn : String) (args : ArgsMap) (n : Int)
    (hdec : unmarshal argsIn = Except.ok args)
    (hlat : mapGet args "latitude" = some (.num n)) :
    invokeFunction unmarshal httpGet apikey "weather" argsIn
      = (.panic "interface conversion", []) := by
  unfold invokeFunction
  rw [hdec]
  simp [hlat, assertString]

/-- Witness for the amended C3 with number-typed coordinates. -/
theorem invokeFunction_latitude_number_panics_witness :
    invokeFunction stubUnmarshalNumArgs stubHTTP "APIKEY" "weather" "PAYLOAD"
      = (.panic "interface conversion", []) :=
  invokeFunction_latitude_number_panics stubUnmarshalNumArgs stubHTTP
    "APIKEY" "PAYLOAD" _ 48 rfl rfl

/-- C4: for a registered tool with well-typed (string) decoded arguments,
`invokeFunction` returns exactly the pair the matched handler returns —
`geocode httpGet loc` or `weather httpGet apikey lat lon` — unmodified, and
traces exactly that one dispatch. -/
theorem invokeFunction_passthrough (unmarshal : UnmarshalOracle)
    (httpGet : HTTPOracle) (apikey argsIn : String) (args : ArgsMap)
    (hdec : unmarshal argsIn = Except.ok args) :
    (∀ loc, mapGet args "location" = some (.str loc) →
      invokeFunction unmarshal httpGet apikey "geocode" argsIn
        = (.ret (geocode httpGet loc), ["geocode"]))
    ∧ (∀ lat lon, mapGet args "latitude" = some (.str lat) →
        mapGet args "longitude" = some (.str lon) →
      invokeFunction unmarshal httpGet apikey "weather" argsIn
        = (.ret (weather httpGet apikey lat lon), ["weather"])) := by
  constructor
  · intro loc hloc
    unfold invokeFunction
    rw [hdec]
    simp [hloc, assertString]
  · intro lat lon hlat hlon
    unfold invokeFunction
    rw [hdec]
    simp [hlat, hlon, assertString]

/-- Witness for C4: both handlers, concrete string arguments, concrete HTTP
stub; the results are exactly the handler outputs. -/
theorem invokeFunction_passthrough_witness :
    invokeFunction stubUnmarshalStrArgs stubHTTP "APIKEY" "geocode" "PAYLOAD"
      = (.ret (geocode stubHTTP "Paris"), ["geocode"])
    ∧ invokeFunction stubUnmarshalStrArgs stubHTTP "APIKEY" "weather" "PAYLOAD"
      = (.ret (weather stubHTTP "APIKEY" "48.85" "2.35"), ["weather"]) := by
  have h := invokeFunction_passthrough stubUnmarshalStrArgs stubHTTP "APIKEY"
    "PAYLOAD" _ rfl
  exact ⟨h.1 "Paris" rfl, h.2 "48.85" "2.35" rfl rfl⟩

/-- C1: on a transcript longer than 13 messages, `converse` returns the
`too in-depth conversation` error at once; the empty event trace shows the
Model Gateway is never called. -/
theorem converse_too_deep (chatO : ChatOracle) (unmarshal : UnmarshalOracle)
    (httpGet : HTTPOracle) (apikey : String)
    (messages : List ChatCompletionMessage)
    (h : messages.length > 13) :
    converse chatO unmarshal httpGet apikey messages
      = (.ret ("", some "too in-depth conversation"), []) := by
  unfold converse
  simp [h]

/-- Witness for C1 on a concrete 14-message transcript. -/
theorem converse_too_deep_witness :
    converse stubChatError stubUnmarshalError stubHTTP "APIKEY"
        fourteenMessages
      = (.ret ("", some "too in-depth conversation"), []) :=
  converse_too_deep stubChatError stubUnmarshalError stubHTTP "APIKEY"
    fourteenMessages (by decide)

/-- C8: within the depth bound, a gateway failure on the first step makes
`converse` return the wrapped `failed chat` error; the trace holds the one
gateway call and no tool dispatch, so no handler was ever invoked. -/
theorem converse_chat_error_first_step (chatO : ChatOracle)
    (unmarshal : UnmarshalOracle) (httpGet : HTTPOracle) (apikey : String)
    (messages : List ChatCompletionMessage) (e : GoErr)
    (hlen : ¬ messages.length > 13)
    (hchat : chatO messages = Except.error e) :
    converse chatO unmarshal httpGet apikey messages
      = (.ret ("", some ("failed chat: " ++ e)), [.chatCall messages]) := by
  unfold converse
  simp [hlen, hchat]

/-- Witness for C8 with the always-failing stub gateway on the seed-sized
transcript. -/
theorem converse_chat_error_first_step_witness :
    converse stubChatError stubUnmarshalError stubHTTP "APIKEY" [userHi]
      = (.ret ("", some "failed chat: connection refused"),
         [.chatCall [userHi]]) :=
  converse_chat_error_first_step stubChatError stubUnmarshalError stubHTTP
    "APIKEY" [userHi] "connection refused" (by decide) rfl

/-- C9: within the depth bound, a successful gateway response whose
`Choices` list is empty makes the unconditional `resp.Choices[0]` access in
`converse` go out of bounds: the embedded run ends in a panic, so `converse`
is well defined only when the response has at least one choice. -/
theorem converse_empty_choices_panics (chatO : ChatOracle)
    (unmarshal : UnmarshalOracle) (httpGet : HTTPOracle) (apikey : String)
    (messages : List ChatCompletionMessage)
    (hlen : ¬ messages.length > 13)
    (hchat : chatO messages = Except.ok ⟨[]⟩) :
    converse chatO unmarshal httpGet apikey messages
      = (.panic "index out of range", [.chatCall messages]) := by
  unfold converse
  simp [hlen, hchat]

/-- Witness for C9 with the empty-choices stub gateway. -/
theorem converse_empty_choices_panics_witness :
    converse stubChatEmptyChoices stubUnmarshalError stubHTTP "APIKEY"
        [userHi]
      = (.panic "index out of range", [.chatCall [userHi]]) :=
  converse_empty_choices_panics stubChatEmptyChoices stubUnmarshalError
    stubHTTP "APIKEY" [userHi] (by decide) rfl

/-- C6: on a successful tool round-trip, `converse` recurses on exactly the
prior transcript (unchanged, in order) extended with two entries: the
assistant tool-call message, then a role-`function` message named after the
requested tool whose content is the dispatcher output — so the tool-result
message immediately follows the assistant message that requested that
tool. -/
theorem converse_tool_step (chatO : ChatOracle) (unmarshal : UnmarshalOracle)
    (httpGet : HTTPOracle) (apikey : String)
    (messages : List ChatCompletionMessage)
    (resp : ChatCompletionResponse) (choice : ChatChoice)
    (rest : List ChatChoice) (fc : FunctionCall) (res : Option Bytes)
    (tools : List String)
    (hlen : ¬ messages.length > 13)
    (hchat : chatO messages = Except.ok resp)
    (hchoices : resp.choices = choice :: rest)
    (hfc : choice.message.functionCall = some fc)
    (hinv : invokeFunction unmarshal httpGet apikey fc.name fc.arguments
      = (.ret (res, none), tools)) :
    converse chatO unmarshal httpGet apikey messages
      = ((converse chatO unmarshal httpGet apikey
            (messages ++ [choice.message,
              { role := "function", name := fc.name,
                content := res.getD "" }])).1,
         Event.chatCall messages ::
           (toolEvents tools
             ++ (converse chatO unmarshal httpGet apikey
                  (messages ++ [choice.message,
                    { role := "function", name := fc.name,
                      content := res.getD "" }])).2)) := by
  conv_lhs => rw [converse]
  simp [hlen, hchat, hchoices, hfc, hinv]

/-- Witness for C6: a concrete one-message transcript, a stub gateway that
requests `geocode`, and the stub dispatcher round-trip. -/
theorem converse_tool_step_witness :
    converse stubChatGeocodeCall stubUnmarshalStrArgs stubHTTP "APIKEY"
        [userHi]
      = ((converse stubChatGeocodeCall stubUnmarshalStrArgs stubHTTP "APIKEY"
            [userHi, geocodeCallMsg,
              { role := "function", name := "geocode",
                content := "BODY" }]).1,
         Event.chatCall [userHi] ::
           (toolEvents ["geocode"]
             ++ (converse stubChatGeocodeCall stubUnmarshalStrArgs stubHTTP
                  "APIKEY"
                  [userHi, geocodeCallMsg,
                    { role := "function", name := "geocode",
                      content := "BODY" }]).2)) :=
  converse_tool_step stubChatGeocodeCall stubUnmarshalStrArgs stubHTTP
    "APIKEY" [userHi] ⟨[⟨geocodeCallMsg⟩]⟩ ⟨geocodeCallMsg⟩ []
    ⟨"geocode", "PAYLOAD"⟩ (some "BODY") ["geocode"]
    (by decide) rfl rfl rfl rfl

/-- C5: `query` delegates to `converse` on exactly the three-message seed
transcript: the two fixed system instructions, in order, then the user
message holding the inquiry. -/
theorem query_seeds_transcript (chatO : ChatOracle)
    (unmarshal : UnmarshalOracle) (httpGet : HTTPOracle)
    (apikey inquiry : String) :
    query chatO unmarshal httpGet apikey inquiry
      = converse chatO unmarshal httpGet apikey
          [ { role := "system",
              content := "Only use the functions you have been provided with." },
            { role := "system",
              content := "Only answer in 50 words or less." },
            { role := "user", content := inquiry } ] := rfl

/-- Sprintf copies a verb-free prefix of the format verbatim. -/
theorem formatChars_copy (cs : List Char) (h : '%' ∉ cs) (rest : List Char)
    (args : List String) :
    formatChars (cs ++ rest) args = cs ++ formatChars rest args := by
  induction cs with
  | nil => simp
  | cons c cs ih =>
    have hc : c ≠ '%' := fun hcc => h (by simp [hcc])
    have h2 : ¬ '%' ∈ cs := fun hm => h (List.mem_cons_of_mem _ hm)
    rw [List.cons_append, formatChars.eq_def]
    simp [hc, ih h2]

/-- Sprintf consumes one argument verbatim at each `%s` verb. -/
theorem formatChars_verb (rest : List Char) (arg : String)
    (args : List String) :
    formatChars ('%' :: 's' :: rest) (arg :: args)
      = arg.data ++ formatChars rest args := by
  simp [formatChars]

/-- C10: the URL the `weather` handler requests carries the latitude as
`lat=$` followed by the latitude value — a literal dollar sign prefixed to
the latitude — while the longitude and the API key are spliced in with no
such prefix. -/
theorem weatherURL_dollar_before_latitude (lat lon apikey : String) :
    weatherURL lat lon apikey
      = "https://api.openweathermap.org/data/2.5/weather?units=metric&lat=$"
          ++ lat ++ "&lon=" ++ lon ++ "&appid=" ++ apikey := by
  apply String.ext
  show formatChars
      (String.data
        "https://api.openweathermap.org/data/2.5/weather?units=metric&lat=$%s&lon=%s&appid=%s")
      [lat, lon, apikey]
    = ("https://api.openweathermap.org/data/2.5/weather?units=metric&lat=$"
        ++ lat ++ "&lon=" ++ lon ++ "&appid=" ++ apikey).data
  rw [show String.data
        "https://api.openweathermap.org/data/2.5/weather?units=metric&lat=$%s&lon=%s&appid=%s"
      = "https://api.openweathermap.org/data/2.5/weather?units=metric&lat=$".data
          ++ '%' :: 's' ::
            ("&lon=".data ++ '%' :: 's' ::
              ("&appid=".data ++ '%' :: 's' :: ([] : List Char))) from rfl]
  rw [formatChars_copy _ (by decide), formatChars_verb]
  rw [formatChars_copy _ (by decide), formatChars_verb]
  rw [formatChars_copy _ (by decide), formatChars_verb]
  simp [formatChars, String.data_append, List.append_assoc]

end GoOpenAIExample
